import Mathlib

/-!
Verification of the colon-link credential autofill extension

Shallow embedding of the repository's four source files:

* `src/unnamed/part_000` — a background service worker ("BG" below, with
  `parseColonLink`, per-tab arming and an origin-cooldown map) and a content
  script ("Min" namespace below, with the anti-loop gate, failure detection
  and the `runNormal` / `runTwoStep` flow controllers).
* `src/background.js` / `src/content.js` — the "Pro" variant
  (`parseColonLinkFlexible`, `scoreUsernameInput` / `scorePasswordInput`,
  `fillBothIfPresent`, `tryAutofillNormal`), which has no anti-loop gate.

Platform primitives used by the source (JS string functions, `new URL`,
`decodeURIComponent`, the DOM) are modelled explicitly; every model carries a
doc comment naming the platform behavior it reflects.
-/

/-! ## JS string primitives -/

/-- ASCII lowercasing of a single character; non-ASCII characters are left
unchanged (model of `String.prototype.toLowerCase` restricted to the ASCII
range, which is all the source's comparisons rely on). -/
def asciiLower (c : Char) : Char :=
  if 'A' ≤ c ∧ c ≤ 'Z' then Char.ofNat (c.toNat + 32) else c

/-- Model of `String.prototype.toLowerCase` (ASCII range). -/
def jsToLower (s : String) : String :=
  String.mk (s.toList.map asciiLower)

/-- JS whitespace characters trimmed by `String.prototype.trim`. -/
def jsIsWs (c : Char) : Bool :=
  c = ' ' ∨ c = '\t' ∨ c = '\n' ∨ c = '\r' ∨ c = '\x0b' ∨ c = '\x0c'

/-- Model of `String.prototype.trim`. -/
def jsTrim (s : String) : String :=
  String.mk ((s.toList.dropWhile jsIsWs).reverse.dropWhile jsIsWs |>.reverse)

/-- Largest index `i ≤ bound` such that `cs[i] = c`, else `-1`.  Underlies the
model of `String.prototype.lastIndexOf` with a fromIndex. -/
def lastIdxLe (cs : List Char) (c : Char) (bound : Nat) : Int :=
  (List.range cs.length).foldl
    (fun (a : Int) (i : Nat) =>
      if i ≤ bound ∧ cs.get? i = some c then (i : Int) else a)
    (-1)

/-- Model of `s.lastIndexOf(c)` for a single-character needle. -/
def jsLastIndexOf (s : String) (c : Char) : Int :=
  lastIdxLe s.toList c s.toList.length

/-- Model of `s.lastIndexOf(c, pos)`: JS clamps a negative `pos` to `0`
(an occurrence at index 0 can still be found). -/
def jsLastIndexOfFrom (s : String) (c : Char) (pos : Int) : Int :=
  lastIdxLe s.toList c pos.toNat

/-- Model of `s.slice(a, b)` for `0 ≤ a ≤ b`. -/
def jsSlice (s : String) (a b : Nat) : String :=
  String.mk ((s.toList.drop a).take (b - a))

/-- Model of `s.slice(a)` (to the end of the string). -/
def jsSliceFrom (s : String) (a : Nat) : String :=
  String.mk (s.toList.drop a)

/-- Boolean prefix test on character lists. -/
def listPre : List Char → List Char → Bool
  | [], _ => true
  | _ :: _, [] => false
  | a :: as, b :: bs => a = b && listPre as bs

/-- Boolean infix test on character lists. -/
def occursIn (t s : List Char) : Bool :=
  (List.range (s.length + 1)).any (fun i => listPre t (s.drop i))

/-- Model of `s.includes(t)`. -/
def jsIncludes (s t : String) : Bool :=
  occursIn t.toList s.toList

/-- `hasAny` / `hasTerm` from both content scripts: lowercase the haystack and
test whether any term of the (already lowercase) vocabulary occurs in it. -/
def hasAnyTerm (s : String) (terms : List String) : Bool :=
  terms.any (fun t => jsIncludes (jsToLower s) t)

/-! ## Platform URL and percent-decoding models -/

/-- Splits the part of a URL after `scheme://` into host and tail.  The host
is everything up to the first `/`, `?` or `#`. -/
def urlHostSplit (rest : List Char) : List Char × List Char :=
  (rest.takeWhile (fun c => ¬ (c = '/' ∨ c = '?' ∨ c = '#')),
   rest.dropWhile (fun c => ¬ (c = '/' ∨ c = '?' ∨ c = '#')))

/-- Scheme/host/tail decomposition behind the `new URL` model: accepts only
`http://` or `https://` inputs (matching every call site in the source, which
guarantees such a prefix before constructing a URL) with a nonempty,
whitespace-free host. -/
def urlParts (s : String) : Option (String × List Char × List Char) :=
  let cs := s.toList
  let low := cs.map asciiLower
  if listPre "https://".toList low = true then
    let (host, tail) := urlHostSplit (cs.drop 8)
    if host = [] ∨ host.any (fun c => jsIsWs c) then none
    else some ("https", host, tail)
  else if listPre "http://".toList low = true then
    let (host, tail) := urlHostSplit (cs.drop 7)
    if host = [] ∨ host.any (fun c => jsIsWs c) then none
    else some ("http", host, tail)
  else none

/-- Model of `new URL(s).toString()`: `none` models the constructor throwing.
Normalisation: scheme and host are lowercased, and a bare authority gets a
trailing `/` path, as the WHATWG serialiser does. -/
def urlModel (s : String) : Option String :=
  match urlParts s with
  | some (scheme, host, tail) =>
      some (scheme ++ "://" ++ String.mk (host.map asciiLower) ++
        (if tail = [] then "/" else String.mk tail))
  | none => none

/-- Model of `new URL(s).origin`, returning `""` when the constructor throws
(mirrors `originOf` in the part_000 background worker, which catches and
returns `""`). -/
def originOf (s : String) : String :=
  match urlParts s with
  | some (scheme, host, _) => scheme ++ "://" ++ String.mk (host.map asciiLower)
  | none => ""

/-- Value of a hex digit, if the character is one. -/
def hexVal (c : Char) : Option Nat :=
  if '0' ≤ c ∧ c ≤ '9' then some (c.toNat - '0'.toNat)
  else if 'a' ≤ c ∧ c ≤ 'f' then some (c.toNat - 'a'.toNat + 10)
  else if 'A' ≤ c ∧ c ≤ 'F' then some (c.toNat - 'A'.toNat + 10)
  else none

/-- Percent-decoding over a character list; `none` models `decodeURIComponent`
throwing `URIError` (a `%` not followed by two hex digits).  Decoded bytes are
taken as single characters — faithful on the ASCII inputs the theorems use. -/
def decodeList : List Char → Option (List Char)
  | [] => some []
  | '%' :: a :: b :: rest =>
      match hexVal a, hexVal b with
      | some x, some y => (decodeList rest).map (fun l => Char.ofNat (16 * x + y) :: l)
      | _, _ => none
  | '%' :: _ => none
  | c :: rest => (decodeList rest).map (fun l => c :: l)

/-- Model of `decodeURIComponent`, `none` = throws. -/
def decodeURIComponentOpt (s : String) : Option String :=
  (decodeList s.toList).map String.mk

/-- `try { x = decodeURIComponent(x) } catch {}` — decode, falling back to the
raw string on error. -/
def decodeOr (s : String) : String :=
  (decodeURIComponentOpt s).getD s

/-! ## The two colon-link parsers -/

/-- Result record of both parsers (`{url, u, p}` in part_000,
`{url, username, password}` in background.js/content.js). -/
structure ColonLink where
  url : String
  username : String
  password : String
deriving DecidableEq, Repr

/-- Index of the last colon (`const last = href.lastIndexOf(":")`). -/
def lastColon (s : String) : Int := jsLastIndexOf s ':'

/-- Index of the colon before it
(`const prev = href.lastIndexOf(":", last - 1)`). -/
def prevColon (s : String) : Int := jsLastIndexOfFrom s ':' (lastColon s - 1)

/-- `href.slice(0, prev).trim()` — the base segment. -/
def baseSeg (s : String) : String := jsTrim (jsSlice s 0 (prevColon s).toNat)

/-- `href.slice(prev + 1, last).trim()` — the username segment. -/
def userSeg (s : String) : String :=
  jsTrim (jsSlice s ((prevColon s).toNat + 1) (lastColon s).toNat)

/-- `href.slice(last + 1).trim()` — the password segment. -/
def passSeg (s : String) : String := jsTrim (jsSliceFrom s ((lastColon s).toNat + 1))

/-- `/^https?$/i.test(base)` — the bare-scheme test of part_000's parser. -/
def isBareScheme (b : String) : Bool :=
  jsToLower b = "http" ∨ jsToLower b = "https"

/-- `/^https?:\/\//i.test(base)` — does the base already carry a scheme? -/
def hasHttpScheme (b : String) : Bool :=
  listPre "http://".toList (jsToLower b).toList ∨
  listPre "https://".toList (jsToLower b).toList

/-- `base` after scheme coercion (`https://` is prepended when absent). -/
def coerceBase (b : String) : String :=
  if hasHttpScheme b then b else "https://" ++ b

/-- `parseColonLink` from `src/unnamed/part_000` (background worker): trims
the raw input, locates the two rightmost colons, rejects leading/absent
colons and bare-scheme bases, coerces the base to a scheme-qualified URL,
percent-decodes the credential segments tolerantly. -/
def parseColonLink (raw : String) : Option ColonLink :=
  if raw = "" then none
  else if lastColon (jsTrim raw) ≤ 0 ∨ prevColon (jsTrim raw) ≤ 0 then none
  else if isBareScheme (baseSeg (jsTrim raw)) then none
  else
    (urlModel (coerceBase (baseSeg (jsTrim raw)))).map
      (fun url => ⟨url, decodeOr (userSeg (jsTrim raw)), decodeOr (passSeg (jsTrim raw))⟩)

/-- `parseColonLinkFlexible` from `src/background.js`: same two-colon grammar
but no whole-string trim and no bare-scheme rejection. -/
def parseColonLinkFlexible (href : String) : Option ColonLink :=
  if href = "" then none
  else if lastColon href ≤ 0 ∨ prevColon href ≤ 0 then none
  else
    (urlModel (coerceBase (baseSeg href))).map
      (fun url => ⟨url, decodeOr (userSeg href), decodeOr (passSeg href)⟩)

example : parseColonLink "example.com:alice:s3cr3t" =
    some ⟨"https://example.com/", "alice", "s3cr3t"⟩ := by decide

example : parseColonLinkFlexible "https://shop.test/login:bob%40x.com:p%40ss" =
    some ⟨"https://shop.test/login", "bob@x.com", "p@ss"⟩ := by decide

/-! ## Claim C9 — guard on colon positions -/

/-- C9: for every input string whose last colon is at index 0 or absent, or
whose preceding colon is at index 0 or absent, both colon-link parsers return
`none` (not-a-link) rather than an error.  part_000 applies the test to the
trimmed input, background.js to the raw input; the embedded parsers are total,
so no error is even expressible. -/
theorem c9_few_colons_not_a_link (raw : String) :
    ((lastColon (jsTrim raw) ≤ 0 ∨ prevColon (jsTrim raw) ≤ 0) →
      parseColonLink raw = none) ∧
    ((lastColon raw ≤ 0 ∨ prevColon raw ≤ 0) →
      parseColonLinkFlexible raw = none) := by
  constructor
  · intro h
    by_cases h0 : raw = ""
    · simp [parseColonLink, h0]
    · simp only [parseColonLink, if_neg h0]
      rw [if_pos h]
  · intro h
    by_cases h0 : raw = ""
    · simp [parseColonLinkFlexible, h0]
    · simp only [parseColonLinkFlexible, if_neg h0]
      rw [if_pos h]

/-- C9 witness: `"no colons here"` and `":x:y"`-shaped inputs are rejected by
both parsers. -/
theorem c9_few_colons_not_a_link_witness :
    parseColonLink "nocolon" = none ∧ parseColonLinkFlexible ":a:b" = none :=
  ⟨(c9_few_colons_not_a_link "nocolon").1 (by decide),
   (c9_few_colons_not_a_link ":a:b").2 (by decide)⟩

/-! ## Claim C7 — bare scheme tokens as base -/

/-- C7 counterexample: on `"https:u:p"` the base segment is exactly the bare
scheme token `"https"`, yet `parseColonLinkFlexible` (src/background.js)
returns a successful parse — it coerces the token into the URL
`https://https/` instead of failing, so the claim is false for that parser. -/
theorem c7_flexible_accepts_bare_scheme_counterexample :
    isBareScheme (baseSeg "https:u:p") = true ∧
    parseColonLinkFlexible "https:u:p" =
      some ⟨"https://https/", "u", "p"⟩ := by
  constructor
  · decide
  · decide

/-- C7 amended: the bare-scheme rejection holds for `parseColonLink`
(src/unnamed/part_000) — whenever the trimmed base segment is exactly a bare
scheme token (`/^https?$/i`), the parser returns `none`; the flexible parser
of src/background.js has no such check. -/
theorem c7_parseColonLink_rejects_bare_scheme (raw : String)
    (h : isBareScheme (baseSeg (jsTrim raw)) = true) :
    parseColonLink raw = none := by
  by_cases h0 : raw = ""
  · simp [parseColonLink, h0]
  · by_cases h1 : lastColon (jsTrim raw) ≤ 0 ∨ prevColon (jsTrim raw) ≤ 0
    · simp only [parseColonLink, if_neg h0]
      rw [if_pos h1]
    · simp only [parseColonLink, if_neg h0, if_neg h1]
      rw [if_pos (of_decide_eq_true (by rw [decide_eq_true_iff]; exact h))]

/-- C7 witness: `"HTTPS:a:b"` has the bare-scheme base `"HTTPS"` and is
rejected by part_000's parser. -/
theorem c7_parseColonLink_rejects_bare_scheme_witness :
    isBareScheme (baseSeg (jsTrim "HTTPS:a:b")) = true ∧
    parseColonLink "HTTPS:a:b" = none :=
  ⟨by decide, c7_parseColonLink_rejects_bare_scheme "HTTPS:a:b" (by decide)⟩

/-! ## Claim C10 — tolerant percent-decoding of credential segments -/

/-- C10: every successful parse carries the percent-decoded username and
password segments, where a segment whose decoding raises keeps its raw text
(`decodeOr`) while the parse still succeeds; concretely,
`https://shop.test/login:bob%40x.com:p%40ss` decodes to `bob@x.com` / `p@ss`,
and the undecodable segment `a%zz` is kept raw in a successful parse by both
parsers. -/
theorem c10_segments_percent_decoded :
    (∀ raw url, raw ≠ "" →
      ¬ (lastColon raw ≤ 0 ∨ prevColon raw ≤ 0) →
      urlModel (coerceBase (baseSeg raw)) = some url →
      parseColonLinkFlexible raw =
        some ⟨url, decodeOr (userSeg raw), decodeOr (passSeg raw)⟩) ∧
    (∀ raw url, raw ≠ "" →
      ¬ (lastColon (jsTrim raw) ≤ 0 ∨ prevColon (jsTrim raw) ≤ 0) →
      isBareScheme (baseSeg (jsTrim raw)) = false →
      urlModel (coerceBase (baseSeg (jsTrim raw))) = some url →
      parseColonLink raw =
        some ⟨url, decodeOr (userSeg (jsTrim raw)),
          decodeOr (passSeg (jsTrim raw))⟩) ∧
    parseColonLinkFlexible "https://shop.test/login:bob%40x.com:p%40ss" =
      some ⟨"https://shop.test/login", "bob@x.com", "p@ss"⟩ ∧
    decodeURIComponentOpt "a%zz" = none ∧
    parseColonLinkFlexible "example.com:a%zz:b%" =
      some ⟨"https://example.com/", "a%zz", "b%"⟩ ∧
    parseColonLink "example.com:a%zz:s3" =
      some ⟨"https://example.com/", "a%zz", "s3"⟩ := by
  refine ⟨fun raw url h0 h1 h2 => ?_, fun raw url h0 h1 hb h2 => ?_,
    by decide, by decide, by decide, by decide⟩
  · simp only [parseColonLinkFlexible, if_neg h0]
    rw [if_neg h1, h2]
    rfl
  · simp only [parseColonLink, if_neg h0]
    rw [if_neg h1, if_neg (by rw [hb]; exact Bool.false_ne_true), h2]
    rfl

/-- C10 witness: the general conjunct applied to `"h.co:x%2f:y"`. -/
theorem c10_segments_percent_decoded_witness :
    parseColonLinkFlexible "h.co:x%2f:y" = some ⟨"https://h.co/", "x/", "y"⟩ :=
  (c10_segments_percent_decoded.1 "h.co:x%2f:y" "https://h.co/"
    (by decide) (by decide) (by decide)).trans (by decide)

/-! ## DOM model

The scanning surface of both content scripts.  A `Root` models one
document-like root (main document, shadow root or same-origin frame document):
`inputs` is the result of `root.querySelectorAll("input")` in document order,
`buttons` the `<button>` elements.  Form association is modelled by an
optional form identifier; `closest('form')` and the form property of a
control coincide in this model (source pages with form-attribute
re-targeting are not modelled).  `parentElement` fallbacks that scan outside
any form are approximated by scanning the whole root. -/

/-- An `<input>` element: attribute values as exposed to the scripts
(`""` models a missing string attribute, `none` a missing `type`
attribute). -/
structure InputEl where
  typeAttr : Option String
  name : String
  idAttr : String
  placeholder : String
  ariaLabel : String
  autocomplete : String
  form : Option Nat
deriving DecidableEq, Repr

/-- A `<button>` (or submit-control) element. -/
structure ButtonEl where
  typeAttr : Option String
  text : String
  form : Option Nat
deriving DecidableEq, Repr

/-- One scannable document root. -/
structure Root where
  inputs : List InputEl
  buttons : List ButtonEl
deriving DecidableEq, Repr

/-- A loaded page: the main document plus the extra roots reachable through
shadow trees and same-origin frames, its address, and its rendered text. -/
structure Page where
  doc : Root
  extraRoots : List Root
  href : String
  bodyText : String
deriving DecidableEq, Repr

/-- `allRoots()` from both content scripts: the main document first, then
every reachable shadow root and same-origin frame document. -/
def allRoots (pg : Page) : List Root := pg.doc :: pg.extraRoots

/-- Input types the platform recognises; an unknown or missing `type`
attribute makes the `el.type` property report `"text"`. -/
def knownInputTypes : List String :=
  ["text", "password", "email", "submit", "search", "tel", "url", "number",
   "checkbox", "radio", "hidden", "button", "file", "date", "reset", "image",
   "range", "color", "month", "week", "time", "datetime-local"]

/-- Model of the `el.type` DOM property read by `norm(el.type)`: the
lowercased attribute when it is a known type, `"text"` otherwise. -/
def typeProp (el : InputEl) : String :=
  match el.typeAttr with
  | none => "text"
  | some v => if knownInputTypes.contains (jsToLower v) then jsToLower v else "text"

/-- CSS attribute-selector match `[type="submit"]` (HTML matches the `type`
attribute ASCII case-insensitively). -/
def btnTypeSubmit (b : ButtonEl) : Bool :=
  (b.typeAttr.map jsToLower) = some "submit"

/-- Shared element-picking loop of both variants' scorers: strictly higher
score wins, ties keep the earlier element (`if (s > bestScore)` with the best
score initialised to `-1`, so the first element always replaces the initial
`null`). -/
def bestBy (sc : InputEl → Nat) (inputs : List InputEl) : Option (InputEl × Nat) :=
  inputs.foldl
    (fun acc el =>
      match acc with
      | none => some (el, sc el)
      | some (b, bs) => if bs < sc el then some (el, sc el) else some (b, bs))
    none

/-! ## part_000 content script ("Min") — scorers, anti-loop gate, fillers -/

namespace Min

/-- Username/email vocabulary of part_000. -/
def USER_TERMS : List String :=
  ["user", "username", "login", "email", "e-mail", "mail", "id", "correo",
   "benutzer", "로그인", "メール", "邮箱", "帳號"]

/-- Password vocabulary of part_000. -/
def PASS_TERMS : List String :=
  ["pass", "password", "senha", "пароль", "סיסמה", "密碼", "密码", "비밀번호",
   "パスワード"]

/-- Failure-phrase vocabulary of part_000. -/
def FAILURE_TERMS : List String :=
  ["invalid", "incorrect", "try again", "failed", "mismatch", "not match",
   "unauthorized", "forbidden", "access denied", "locked", "captcha",
   "too many", "limit", "banned",
   "無効", "エラー", "错误", "失敗", "fehlgeschlagen", "неверный", "ошибка",
   "gagal"]

/-- `SCAN_MS`-independent anti-loop configuration: auto-submit is off by
default. -/
def AUTO_SUBMIT_DEFAULT : Bool := false

/-- Maximum number of automatic submit clicks per tab. -/
def MAX_SUBMITS_PER_TAB : Nat := 1

/-- Cooldown after a detected failure (ms). -/
def SUBMIT_COOLDOWN_MS : Nat := 10 * 60 * 1000

/-- The `anti` object of part_000's content script. -/
structure AntiState where
  autoSubmit : Bool
  submittedCount : Nat
  lastSubmitAt : Nat
  coolDownUntil : Nat
  lastUrlAfterSubmit : String
deriving DecidableEq, Repr

/-- Initial `anti` value. -/
def antiInit : AntiState :=
  ⟨AUTO_SUBMIT_DEFAULT, 0, 0, 0, ""⟩

/-- `canAutoSubmit()`: the anti-loop gate
`autoSubmit && now >= coolDownUntil && submittedCount < MAX_SUBMITS_PER_TAB`. -/
def canAutoSubmit (anti : AntiState) (now : Nat) : Bool :=
  if anti.autoSubmit = false then false
  else if now < anti.coolDownUntil then false
  else if MAX_SUBMITS_PER_TAB ≤ anti.submittedCount then false
  else true

/-- `recordSubmit()`: bump the counter and remember when/where. -/
def recordSubmit (anti : AntiState) (now : Nat) (href : String) : AntiState :=
  { anti with
    submittedCount := anti.submittedCount + 1
    lastSubmitAt := now
    lastUrlAfterSubmit := href }

/-- `onFailureCoolDown()`. -/
def onFailureCoolDown (anti : AntiState) (now : Nat) : AntiState :=
  { anti with coolDownUntil := now + SUBMIT_COOLDOWN_MS }

/-- Per-element username score of part_000's `findBestInputs` first loop. -/
def userScore (el : InputEl) : Nat :=
  (if typeProp el = "" ∨ typeProp el = "text" ∨ typeProp el = "email"
    then 2 else 0) +
  (if hasAnyTerm (el.name ++ " " ++ el.idAttr ++ " " ++ el.placeholder ++ " "
      ++ el.ariaLabel) USER_TERMS then 6 else 0) +
  (if jsToLower el.autocomplete = "username" ∨ jsToLower el.autocomplete = "email"
    then 6 else 0) +
  (if typeProp el = "email" then 3 else 0)

/-- Per-element password score of part_000's `findBestInputs` second loop. -/
def passScore (el : InputEl) : Nat :=
  (if typeProp el = "password" then 8 else 0) +
  (if hasAnyTerm (el.name ++ " " ++ el.idAttr ++ " " ++ el.placeholder ++ " "
      ++ el.ariaLabel) PASS_TERMS then 6 else 0) +
  (if jsIncludes (jsToLower el.autocomplete) "password" then 6 else 0)

/-- part_000's `findBestInputs(root)`: the two winners (note there is no
same-form re-search in this variant). -/
def findBestInputs (r : Root) : Option InputEl × Option InputEl :=
  ((bestBy userScore r.inputs).map (fun x => x.1),
   (bestBy passScore r.inputs).map (fun x => x.1))

/-- part_000's `findSubmitNear(el)`: first a submit-typed control in the
element's own form, then any nearby button whose text contains one of
`login` / `sign in` / `continue` / `next`. -/
def findSubmitNear (r : Root) (el : InputEl) : Option ButtonEl :=
  let formBtn :=
    match el.form with
    | some f => (r.buttons.filter (fun (b : ButtonEl) =>
        (b.form == some f) && btnTypeSubmit b)).head?
    | none => none
  match formBtn with
  | some b => some b
  | none =>
      let near :=
        match el.form with
        | some f => r.buttons.filter (fun (b : ButtonEl) => b.form == some f)
        | none => r.buttons
      (near.filter (fun (b : ButtonEl) =>
        jsIncludes (jsToLower b.text) "login" ||
        jsIncludes (jsToLower b.text) "sign in" ||
        jsIncludes (jsToLower b.text) "continue" ||
        jsIncludes (jsToLower b.text) "next")).head?

/-- `pageShowsLikelyFailure()`: a failure phrase in the rendered text, or a
password field still present while the address equals the one recorded right
after the last auto submission. -/
def pageShowsLikelyFailure (pg : Page) (anti : AntiState) : Bool :=
  if FAILURE_TERMS.any (fun k => jsIncludes (jsToLower pg.bodyText) k) then true
  else
    (findBestInputs pg.doc).2.isSome ∧
    anti.lastUrlAfterSubmit ≠ "" ∧
    anti.lastUrlAfterSubmit = pg.href

/-- Output of one fill helper call: its boolean result, the `anti` state
after it, the number of automatic submit clicks it performed, and the number
of `setVal` calls. -/
structure FillOut where
  result : Bool
  anti : AntiState
  clicks : Nat
  fills : Nat
deriving DecidableEq, Repr

/-- Loop body of part_000's `fillBoth(u, p)` over the roots, carrying the
accumulated `anyFilled` flag and fill count. -/
def fillBothAux (u p href : String) (now : Nat) (anti : AntiState)
    (anyFilled : Bool) (fills : Nat) : List Root → FillOut
  | [] => ⟨anyFilled, anti, 0, fills⟩
  | r :: rs =>
      let bi := findBestInputs r
      let f1 := bi.1.isSome && decide (u ≠ "")
      let f2 := bi.2.isSome && decide (p ≠ "")
      let fills1 := fills + (cond f1 1 0) + (cond f2 1 0)
      if (f1 || f2) && bi.2.isSome then
        let sub := match bi.2 with
          | some el => findSubmitNear r el
          | none => none
        if sub.isSome && canAutoSubmit anti now then
          ⟨true, recordSubmit anti now href, 1, fills1⟩
        else ⟨true, anti, 0, fills1⟩
      else fillBothAux u p href now anti (anyFilled || f1 || f2) fills1 rs

/-- part_000's `fillBoth(u, p)` across all roots of the page. -/
def fillBoth (u p href : String) (now : Nat) (anti : AntiState)
    (roots : List Root) : FillOut :=
  fillBothAux u p href now anti false 0 roots

/-- part_000's `fillUser(u)`: fill only the username field — guarded by
`userBest && !passBest && u`. -/
def fillUser (u href : String) (now : Nat) (anti : AntiState) :
    List Root → FillOut
  | [] => ⟨false, anti, 0, 0⟩
  | r :: rs =>
      let bi := findBestInputs r
      if bi.1.isSome && !bi.2.isSome && decide (u ≠ "") then
        let sub := match bi.1 with
          | some el => findSubmitNear r el
          | none => none
        if sub.isSome && canAutoSubmit anti now then
          ⟨true, recordSubmit anti now href, 1, 1⟩
        else ⟨true, anti, 0, 1⟩
      else fillUser u href now anti rs

/-- part_000's `fillPass(p)`: fill only the password field. -/
def fillPass (p href : String) (now : Nat) (anti : AntiState) :
    List Root → FillOut
  | [] => ⟨false, anti, 0, 0⟩
  | r :: rs =>
      let bi := findBestInputs r
      if bi.2.isSome && decide (p ≠ "") then
        let sub := match bi.2 with
          | some el => findSubmitNear r el
          | none => none
        if sub.isSome && canAutoSubmit anti now then
          ⟨true, recordSubmit anti now href, 1, 1⟩
        else ⟨true, anti, 0, 1⟩
      else fillPass p href now anti rs

end Min

/-! ## Shared trigger/message vocabulary of the flow controllers -/

/-- Messages a content script sends to its background worker. -/
inductive Msg
  | clearCreds
  | markOriginFailure
  | updateStage (stage : String)
deriving DecidableEq, Repr

/-- One trigger event: a poll tick of the `setInterval` loop or a
DOM-mutation notification, together with the page as the DOM presents it at
that moment and the current clock value (ms). -/
inductive Ev
  | tick (page : Page) (now : Nat)
  | mutation (page : Page) (now : Nat)
deriving DecidableEq, Repr

/-! ## content.js ("Pro") — scorers, re-search, fillers, normal flow -/

namespace Pro

/-- Username/email vocabulary of content.js. -/
def USER_TERMS : List String :=
  ["user", "username", "login", "email", "e-mail", "mail", "usuario",
   "usuário", "utilisateur", "utente", "usuari", "correo", "adresse",
   "benutzer", "benutzername", "anmelden", "einloggen", "brugernavn",
   "gebruikersnaam", "e-post", "имя", "логин", "пользов", "користувач",
   "логін", "użytkownik", "kullanıcı", "eposta", "χρήστη", "σύνδεση",
   "משתמש", "דוא\"ל", "بريد", "مستخدم", "حساب", "ايميل",
   "ईमेल", "उपयोगकर्ता", "メール", "ユーザー", "ログイン", "电子邮件", "郵件",
   "邮箱", "帳號", "賬號", "사용자", "아이디"]

/-- Password vocabulary of content.js. -/
def PASS_TERMS : List String :=
  ["pass", "password", "senha", "mot de passe", "contrasena", "contraseña",
   "hasło", "şifre", "пароль", "סיסמה", "密碼", "密码",
   "암호", "비밀번호", "パスワード", "รหัสผ่าน", "mật khẩu"]

/-- Submit/continue vocabulary of content.js. -/
def SUBMIT_TERMS : List String :=
  ["login", "log in", "sign in", "anmelden", "einloggen", "connexion",
   "accedi", "acceso", "entrar", "iniciar sesión", "giriş", "войти",
   "התחבר", "تسجيل الدخول", "ログイン", "로그인", "登录", "登入", "đăng nhập",
   "เข้าสู่ระบบ", "zaloguj", "continue", "next", "weiter", "suivant",
   "avanti", "continuar", "siguiente", "下一步", "继续", "次へ", "다음",
   "продолжить", "lanjut", "berikutnya"]

/-- `scoreUsernameInput(el)` of content.js. -/
def scoreUsernameInput (el : InputEl) : Nat :=
  (if typeProp el = "email" ∨ typeProp el = "text" ∨ typeProp el = ""
    then 2 else 0) +
  (if hasAnyTerm (jsToLower el.name ++ " " ++ jsToLower el.idAttr) USER_TERMS
    then 6 else 0) +
  (if hasAnyTerm el.placeholder USER_TERMS then 4 else 0) +
  (if hasAnyTerm el.ariaLabel USER_TERMS then 4 else 0) +
  (if jsToLower el.autocomplete = "username" ∨ jsToLower el.autocomplete = "email"
    then 6 else 0) +
  (if typeProp el = "email" then 3 else 0)

/-- `scorePasswordInput(el)` of content.js. -/
def scorePasswordInput (el : InputEl) : Nat :=
  (if typeProp el = "password" then 8 else 0) +
  (if hasAnyTerm (jsToLower el.name ++ " " ++ jsToLower el.idAttr) PASS_TERMS
    then 5 else 0) +
  (if hasAnyTerm el.placeholder PASS_TERMS then 4 else 0) +
  (if hasAnyTerm el.ariaLabel PASS_TERMS then 4 else 0) +
  (if jsIncludes (jsToLower el.autocomplete) "password" then 6 else 0)

/-- The candidate selector of the same-form re-search:
`input[type="email"], input[type="text"], input:not([type])` (the HTML `type`
attribute matches case-insensitively). -/
def selUserCand (c : InputEl) : Bool :=
  match c.typeAttr with
  | none => true
  | some v => jsToLower v == "email" || jsToLower v == "text"

/-- `passBest.form.querySelectorAll(...)` followed by the best-score loop of
content.js's re-search: the best username candidate among the selector
matches inside the form `f`. -/
def inFormBestUser (r : Root) (f : Option Nat) : Option (InputEl × Nat) :=
  bestBy scoreUsernameInput
    (r.inputs.filter (fun (c : InputEl) => (c.form == f) && selUserCand c))

/-- `findBestInputs(root)` of content.js: global best per role, then — when
the two winners live in different forms — a re-search inside the password
field's form, switching the username winner only when the in-form candidate
scores at least `Math.max(3, userScore - 2)`. -/
def findBestInputs (r : Root) : Option InputEl × Option InputEl :=
  match bestBy scorePasswordInput r.inputs, bestBy scoreUsernameInput r.inputs with
  | some (pB, _), some (uB, uS) =>
      if pB.form.isSome && uB.form.isSome && decide (pB.form ≠ uB.form) then
        match inFormBestUser r pB.form with
        | some (b, bs) =>
            if max 3 (uS - 2) ≤ bs then (some b, some pB) else (some uB, some pB)
        | none => (some uB, some pB)
      else (some uB, some pB)
  | pb, ub => (ub.map (fun x => x.1), pb.map (fun x => x.1))

/-- `findSubmitButton(root, ctx)` of content.js: submit-typed control in the
context's form, then a nearby button matching the submit vocabulary, then any
submit-typed control in the root, then any short-labelled vocabulary match. -/
def findSubmitButton (r : Root) (ctx : InputEl) : Option ButtonEl :=
  let formBtn :=
    match ctx.form with
    | some f => (r.buttons.filter (fun (b : ButtonEl) =>
        (b.form == some f) && btnTypeSubmit b)).head?
    | none => none
  match formBtn with
  | some b => some b
  | none =>
      let near :=
        match ctx.form with
        | some f => r.buttons.filter (fun (b : ButtonEl) => b.form == some f)
        | none => r.buttons
      match (near.filter (fun (b : ButtonEl) =>
          hasAnyTerm b.text SUBMIT_TERMS)).head? with
      | some c => some c
      | none =>
          match (r.buttons.filter btnTypeSubmit).head? with
          | some b => some b
          | none =>
              (r.buttons.filter (fun (b : ButtonEl) =>
                (jsToLower b.text != "") &&
                decide (b.text.toList.length < 28) &&
                hasAnyTerm b.text SUBMIT_TERMS)).head?

/-- Output of one content.js fill helper: result flag, submit clicks
(performed unconditionally whenever a submit control is found — there is no
anti-loop gate in this variant) and `setVal` count. -/
structure PFillOut where
  result : Bool
  clicks : Nat
  fills : Nat
deriving DecidableEq, Repr

/-- Loop body of `fillBothIfPresent(u, p)`; note that `any` is declared
outside the root loop in the source and therefore persists across roots. -/
def fillBothAux (u p : String) (anyAcc : Bool) (fills : Nat) :
    List Root → PFillOut
  | [] => ⟨false, 0, fills⟩
  | r :: rs =>
      let bi := findBestInputs r
      let f1 := bi.1.isSome && decide (u ≠ "")
      let f2 := bi.2.isSome && decide (p ≠ "")
      let any := anyAcc || f1 || f2
      let fills1 := fills + (cond f1 1 0) + (cond f2 1 0)
      if any && bi.2.isSome then
        let sub := match bi.2 with
          | some el => findSubmitButton r el
          | none => none
        ⟨true, cond sub.isSome 1 0, fills1⟩
      else fillBothAux u p any fills1 rs

/-- `fillBothIfPresent(u, p)` of content.js. -/
def fillBothIfPresent (u p : String) (roots : List Root) : PFillOut :=
  fillBothAux u p false 0 roots

/-- `fillUsernameOnly(u)` of content.js (first step of two-step flows);
clicks the located continue control unconditionally. -/
def fillUsernameOnly (u : String) : List Root → PFillOut
  | [] => ⟨false, 0, 0⟩
  | r :: rs =>
      let bi := findBestInputs r
      if bi.1.isSome && !bi.2.isSome && decide (u ≠ "") then
        let sub := match bi.1 with
          | some el => findSubmitButton r el
          | none => none
        ⟨true, cond sub.isSome 1 0, 1⟩
      else fillUsernameOnly u rs

/-- `fillPasswordIfPresent(p)` of content.js. -/
def fillPasswordIfPresent (p : String) : List Root → PFillOut
  | [] => ⟨false, 0, 0⟩
  | r :: rs =>
      let bi := findBestInputs r
      if bi.2.isSome && decide (p ≠ "") then
        let sub := match bi.2 with
          | some el => findSubmitButton r el
          | none => none
        ⟨true, cond sub.isSome 1 0, 1⟩
      else fillPasswordIfPresent p rs

/-- State of `tryAutofillNormal`: only the interval's liveness and its
attempt counter — this variant keeps no armed flag and never disconnects its
mutation observer (only the page-unload disposer does). -/
structure NState where
  intervalActive : Bool
  attempts : Nat
deriving DecidableEq, Repr

/-- Output of one trigger processed by `tryAutofillNormal`. -/
structure NOut where
  state : NState
  msgs : List Msg
  clicks : Nat
  fills : Nat
deriving DecidableEq, Repr

/-- One trigger of content.js's `tryAutofillNormal(creds)`: the interval
callback clears credentials and stops itself on success; the mutation
observer calls `fillBothIfPresent` unconditionally, forever. -/
def stepNormal (u p : String) (s : NState) : Ev → NOut
  | .tick page _ =>
      if s.intervalActive = false then ⟨s, [], 0, 0⟩
      else
        let o := fillBothIfPresent u p (allRoots page)
        if o.result then
          ⟨⟨false, s.attempts + 1⟩, [.clearCreds], o.clicks, o.fills⟩
        else if 400 ≤ s.attempts + 1 then
          ⟨⟨false, s.attempts + 1⟩, [], o.clicks, o.fills⟩
        else ⟨⟨true, s.attempts + 1⟩, [], o.clicks, o.fills⟩
  | .mutation page _ =>
      let o := fillBothIfPresent u p (allRoots page)
      ⟨s, [], o.clicks, o.fills⟩

/-- Accumulated run of `tryAutofillNormal` over a trigger sequence. -/
def runNormal (u p : String) (s : NState) : List Ev → NOut
  | [] => ⟨s, [], 0, 0⟩
  | ev :: evs =>
      let o := stepNormal u p s ev
      let r := runNormal u p o.state evs
      ⟨r.state, o.msgs ++ r.msgs, o.clicks + r.clicks, o.fills + r.fills⟩

end Pro

/-! ## part_000 flow controller — `runNormal` / `runTwoStep` as a step machine -/

namespace Min

/-- State of one destination page context in part_000: the `state` object,
the `anti` object, the interval's liveness/attempt counter and the wall-clock
deadline after which the mutation observer has been disconnected
(`setTimeout(() => mo.disconnect(), 15000 / 20000)`). -/
structure CSState where
  armed : Bool
  u : String
  p : String
  twoStep : Bool
  stage : String
  anti : AntiState
  intervalActive : Bool
  attempts : Nat
  moUntil : Nat
deriving DecidableEq, Repr

/-- Observable outcome of processing one trigger: successor state, messages
sent to the background, automatic submit clicks, `setVal` fill actions. -/
structure StepOut where
  state : CSState
  msgs : List Msg
  clicks : Nat
  fills : Nat
deriving DecidableEq, Repr

/-- State set up by `requestCreds` when the background returns an entry
(`state.armed = true`, `stage = c.stage || "init"`, fresh `anti`), with the
observer deadline of the selected flow. -/
def initState (u p : String) (twoStep : Bool) (stage : String)
    (startNow : Nat) : CSState :=
  { armed := true, u := u, p := p, twoStep := twoStep,
    stage := if stage = "" then "init" else stage,
    anti := antiInit, intervalActive := true, attempts := 0,
    moUntil := startNow + (if twoStep then 20000 else 15000) }

/-- One poll tick (`setInterval` callback of `runNormal` / `runTwoStep`):
attempts++, armed check, failure detection, then the stage's fill logic, then
the attempt ceiling. -/
def stepTick (s : CSState) (page : Page) (now : Nat) : StepOut :=
  if s.intervalActive = false then ⟨s, [], 0, 0⟩
  else
    let s1 : CSState := { s with attempts := s.attempts + 1 }
    if s1.armed = false then ⟨{ s1 with intervalActive := false }, [], 0, 0⟩
    else if pageShowsLikelyFailure page s1.anti then
      ⟨{ s1 with
          armed := false
          intervalActive := false
          anti := onFailureCoolDown s1.anti now },
        [.clearCreds, .markOriginFailure], 0, 0⟩
    else if s1.twoStep = false then
      let o := fillBoth s1.u s1.p page.href now s1.anti (allRoots page)
      if o.result then
        ⟨{ s1 with
            armed := false
            intervalActive := false
            anti := o.anti },
          [.clearCreds], o.clicks, o.fills⟩
      else if 400 ≤ s1.attempts then
        ⟨{ s1 with anti := o.anti, intervalActive := false }, [],
          o.clicks, o.fills⟩
      else ⟨{ s1 with anti := o.anti }, [], o.clicks, o.fills⟩
    else if s1.stage = "init" then
      let o := fillBoth s1.u s1.p page.href now s1.anti (allRoots page)
      if o.result then
        ⟨{ s1 with
            armed := false
            intervalActive := false
            anti := o.anti },
          [.clearCreds], o.clicks, o.fills⟩
      else
        let o2 := fillUser s1.u page.href now o.anti (allRoots page)
        let s2 : CSState :=
          if o2.result then { s1 with stage := "userSubmitted", anti := o2.anti }
          else { s1 with anti := o2.anti }
        let s3 : CSState :=
          if 1000 ≤ s2.attempts then { s2 with intervalActive := false } else s2
        ⟨s3, if o2.result then [.updateStage "userSubmitted"] else [],
          o.clicks + o2.clicks, o.fills + o2.fills⟩
    else
      let o := fillPass s1.p page.href now s1.anti (allRoots page)
      let s2 : CSState :=
        if o.result then
          { s1 with
            armed := false
            intervalActive := false
            anti := o.anti }
        else { s1 with anti := o.anti }
      let s3 : CSState :=
        if 1000 ≤ s2.attempts then { s2 with intervalActive := false } else s2
      ⟨s3, if o.result then [.clearCreds] else [], o.clicks, o.fills⟩

/-- One DOM-mutation notification: both observers bail out when the state is
no longer armed, and otherwise only re-run the stage's fill helper — they
never run failure detection, never change `armed` or `stage`, and never send
messages. -/
def stepMutation (s : CSState) (page : Page) (now : Nat) : StepOut :=
  if s.moUntil ≤ now then ⟨s, [], 0, 0⟩
  else if s.armed = false then ⟨s, [], 0, 0⟩
  else if s.twoStep = false then
    let o := fillBoth s.u s.p page.href now s.anti (allRoots page)
    ⟨{ s with anti := o.anti }, [], o.clicks, o.fills⟩
  else if s.stage = "userSubmitted" then
    let o := fillPass s.p page.href now s.anti (allRoots page)
    ⟨{ s with anti := o.anti }, [], o.clicks, o.fills⟩
  else
    let o := fillBoth s.u s.p page.href now s.anti (allRoots page)
    ⟨{ s with anti := o.anti }, [], o.clicks, o.fills⟩

/-- Dispatch one trigger. -/
def step (s : CSState) : Ev → StepOut
  | .tick page now => stepTick s page now
  | .mutation page now => stepMutation s page now

/-- Run a whole trigger sequence, accumulating messages, clicks and fills. -/
def run (s : CSState) : List Ev → StepOut
  | [] => ⟨s, [], 0, 0⟩
  | ev :: evs =>
      let o := step s ev
      let r := run o.state evs
      ⟨r.state, o.msgs ++ r.msgs, o.clicks + r.clicks, o.fills + r.fills⟩

end Min

/-! ## Claim C8 — same-form re-search tolerance -/

/-- C8 counterexample page: global best username `c8A` (form 1, score 2);
password best `c8P` (form 2); in-form candidate `c8B` (form 2, score 2). -/
def c8A : InputEl := ⟨some "text", "alpha", "", "", "", "", some 1⟩

/-- C8 counterexample: the password winner in form 2. -/
def c8P : InputEl := ⟨some "password", "secret", "", "", "", "", some 2⟩

/-- C8 counterexample: the text input sharing the password's form. -/
def c8B : InputEl := ⟨some "text", "bravo", "", "", "", "", some 2⟩

/-- C8 counterexample root. -/
def c8root : Root := ⟨[c8A, c8P, c8B], []⟩

/-- C8 counterexample: the in-form candidate `c8B` scores 2, which is within
the tolerance of 2 of the global best score 2 (`2 - 2 ≤ 2`), yet
`findBestInputs` keeps the global best `c8A` — the code additionally requires
the candidate to score at least 3 (`Math.max(3, userScore - 2)`), so
"replaces exactly when within a small tolerance of the original best" is
false on this root. -/
theorem c8_within_tolerance_not_switched_counterexample :
    bestBy Pro.scoreUsernameInput c8root.inputs = some (c8A, 2) ∧
    bestBy Pro.scorePasswordInput c8root.inputs = some (c8P, 8) ∧
    c8P.form ≠ c8A.form ∧
    Pro.inFormBestUser c8root c8P.form = some (c8B, 2) ∧
    2 - 2 ≤ 2 ∧
    (Pro.findBestInputs c8root).1 = some c8A ∧
    c8A ≠ c8B :=
  ⟨by decide, by decide, by decide, by decide, by decide, by decide, by decide⟩

/-- C8 email scenario: password field in form 0 … -/
def c8P2 : InputEl := ⟨some "password", "qq", "", "", "", "", some 0⟩

/-- … and email field in form 1. -/
def c8E : InputEl := ⟨some "email", "zz", "", "", "", "", some 1⟩

/-- C8 email-scenario root (no other inputs in the password's form). -/
def c8eroot : Root := ⟨[c8P2, c8E], []⟩

/-- C8 amended: when the two global winners belong to different forms, the
scorer re-searches the password field's own form and replaces the global best
exactly when the in-form candidate's score reaches
`max 3 (userScore - 2)` — i.e. within tolerance 2 of the original best AND at
least 3; with no in-form candidate the global best stays.  In particular a
root with one `type=password` field and one `type=email` field in a different
form still selects the email field as username candidate. -/
theorem c8_same_form_re_search_amended :
    (∀ (r : Root) (pB uB : InputEl) (pS uS : Nat),
      bestBy Pro.scorePasswordInput r.inputs = some (pB, pS) →
      bestBy Pro.scoreUsernameInput r.inputs = some (uB, uS) →
      pB.form.isSome = true → uB.form.isSome = true → pB.form ≠ uB.form →
      (∀ b bs, Pro.inFormBestUser r pB.form = some (b, bs) →
        Pro.findBestInputs r =
          ((if max 3 (uS - 2) ≤ bs then some b else some uB), some pB)) ∧
      (Pro.inFormBestUser r pB.form = none →
        Pro.findBestInputs r = (some uB, some pB))) ∧
    Pro.findBestInputs c8eroot = (some c8E, some c8P2) := by
  constructor
  · intro r pB uB pS uS hp hu hbf huf hne
    have hcond : (pB.form.isSome && uB.form.isSome && decide (pB.form ≠ uB.form))
        = true := by
      rw [hbf, huf]
      simp [hne]
    constructor
    · intro b bs hb
      unfold Pro.findBestInputs
      rw [hp, hu]
      simp only [hcond, if_true, hb]
      by_cases hc : max 3 (uS - 2) ≤ bs <;> simp [hc]
    · intro hb
      unfold Pro.findBestInputs
      rw [hp, hu]
      simp only [hcond, if_true, hb]
  · decide

/-- C8 witness root: in-form candidate `c8W3` scores 8 against the global
best score 8 … -/
def c8W1 : InputEl := ⟨some "text", "user", "", "", "", "", some 5⟩

/-- … the password winner in form 6 … -/
def c8W2 : InputEl := ⟨some "password", "pass", "", "", "", "", some 6⟩

/-- … and the in-form text input whose name matches the email vocabulary. -/
def c8W3 : InputEl := ⟨some "text", "email9", "", "", "", "", some 6⟩

/-- C8 witness root. -/
def c8wroot : Root := ⟨[c8W1, c8W2, c8W3], []⟩

/-- C8 witness: on `c8wroot` the in-form candidate reaches the threshold and
the re-search switches to it. -/
theorem c8_same_form_re_search_amended_witness :
    Pro.findBestInputs c8wroot = (some c8W3, some c8W2) :=
  (((c8_same_form_re_search_amended.1 c8wroot c8W2 c8W1 13 8
    (by decide) (by decide) (by decide) (by decide) (by decide)).1
      c8W3 8 (by decide)).trans (by decide))

/-! ## Claim C4 — username-only pages under `fillBoth` -/

/-- C4 failing input: a page whose only input is a plain text field named
`username` (no password-capable field in any honest sense), with a submit
button in the same form. -/
def c4input : InputEl := ⟨some "text", "username", "", "", "", "", some 0⟩

/-- C4 failing input: the submit button. -/
def c4btn : ButtonEl := ⟨some "submit", "Log in", some 0⟩

/-- C4 failing input: the single root. -/
def c4root : Root := ⟨[c4input], [c4btn]⟩

/-- C4 failing input: the page. -/
def c4page : Page := ⟨c4root, [], "https://c4.test/", "Welcome"⟩

/-- C4: on a page offering only a username field, the scorers of both
variants still produce a `passBest` (the `-1` initial best score lets the
lone text input win the password role with score 0), so `fillBoth` writes the
password into that same field, reports completion, and the single-step tick
disarms the flow and clears the vault — contradicting the spec's fidelity
rule that such a page is filled but left un-submitted with the flow still
armed.  content.js's `fillBothIfPresent` even clicks the submit control.
part_000's `fillUser` guard `userBest && !passBest` is dead on such pages for
the same reason. -/
theorem c4_username_only_page_submitted_and_disarmed :
    (Min.findBestInputs c4root).2 = some c4input ∧
    (Min.fillBoth "alice" "s3cr3t" "https://c4.test/" 0 Min.antiInit [c4root])
      = ⟨true, Min.antiInit, 0, 2⟩ ∧
    (Min.stepTick (Min.initState "alice" "s3cr3t" false "" 0) c4page 800).state.armed
      = false ∧
    (Min.stepTick (Min.initState "alice" "s3cr3t" false "" 0) c4page 800).msgs
      = [Msg.clearCreds] ∧
    (Min.fillUser "alice" "https://c4.test/" 0 Min.antiInit [c4root]).result = false ∧
    Pro.fillBothIfPresent "alice" "s3cr3t" [c4root] = ⟨true, 1, 2⟩ :=
  ⟨by decide, by decide, by decide, by decide, by decide, by decide⟩

/-! ## Anti-loop invariants of the part_000 flow -/

namespace Min

/-- A successful `canAutoSubmit` means the gate was really open: auto-submit
enabled and the cap not yet reached. -/
theorem canAutoSubmit_true_facts {anti : AntiState} {now : Nat}
    (h : canAutoSubmit anti now = true) :
    anti.autoSubmit = true ∧ anti.submittedCount < MAX_SUBMITS_PER_TAB := by
  unfold canAutoSubmit at h
  split_ifs at h with h1 h2 h3
  exact ⟨by cases hx : anti.autoSubmit with
    | false => exact absurd hx h1
    | true => rfl, Nat.lt_of_not_le h3⟩

/-- With auto-submit disabled the gate is closed. -/
theorem canAutoSubmit_false_of_disabled {anti : AntiState} {now : Nat}
    (h : anti.autoSubmit = false) : canAutoSubmit anti now = false := by
  unfold canAutoSubmit
  simp [h]

/-- Accounting of `fillBoth`'s root loop: every click increments the counter,
the enable flag is never written, at most one click happens per call, a click
implies the gate was open beforehand, and a `false` result leaves `anti`
untouched with no click. -/
theorem fillBothAux_spec (u p href : String) (now : Nat) (roots : List Root) :
    ∀ (anti : AntiState) (anyF : Bool) (fills : Nat),
      ((fillBothAux u p href now anti anyF fills roots).anti.submittedCount
        = anti.submittedCount + (fillBothAux u p href now anti anyF fills roots).clicks) ∧
      ((fillBothAux u p href now anti anyF fills roots).anti.autoSubmit
        = anti.autoSubmit) ∧
      ((fillBothAux u p href now anti anyF fills roots).clicks ≤ 1) ∧
      ((fillBothAux u p href now anti anyF fills roots).clicks ≠ 0 →
        anti.submittedCount < MAX_SUBMITS_PER_TAB ∧ anti.autoSubmit = true) ∧
      ((fillBothAux u p href now anti anyF fills roots).result = false →
        (fillBothAux u p href now anti anyF fills roots).anti = anti ∧
        (fillBothAux u p href now anti anyF fills roots).clicks = 0) := by
  induction roots with
  | nil =>
      intro anti anyF fills
      simp [fillBothAux]
  | cons r rs ih =>
      intro anti anyF fills
      simp only [fillBothAux]
      split
      · split
        · rename_i hgate
          have hg : canAutoSubmit anti now = true := by
            revert hgate
            cases canAutoSubmit anti now <;> simp
          rcases canAutoSubmit_true_facts hg with ⟨ha, hc⟩
          simp [recordSubmit, ha, hc]
        · simp
      · exact ih anti _ _


/-- Accounting of `fillUser`'s root loop (same shape as `fillBoth`). -/
theorem fillUser_spec (u href : String) (now : Nat) (roots : List Root) :
    ∀ (anti : AntiState),
      ((fillUser u href now anti roots).anti.submittedCount
        = anti.submittedCount + (fillUser u href now anti roots).clicks) ∧
      ((fillUser u href now anti roots).anti.autoSubmit = anti.autoSubmit) ∧
      ((fillUser u href now anti roots).clicks ≤ 1) ∧
      ((fillUser u href now anti roots).clicks ≠ 0 →
        anti.submittedCount < MAX_SUBMITS_PER_TAB ∧ anti.autoSubmit = true) ∧
      ((fillUser u href now anti roots).result = false →
        (fillUser u href now anti roots).anti = anti ∧
        (fillUser u href now anti roots).clicks = 0) := by
  induction roots with
  | nil =>
      intro anti
      simp [fillUser]
  | cons r rs ih =>
      intro anti
      simp only [fillUser]
      split
      · split
        · rename_i hgate
          have hg : canAutoSubmit anti now = true := by
            revert hgate
            cases canAutoSubmit anti now <;> simp
          rcases canAutoSubmit_true_facts hg with ⟨ha, hc⟩
          simp [recordSubmit, ha, hc]
        · simp
      · exact ih anti

/-- Accounting of `fillPass`'s root loop. -/
theorem fillPass_spec (p href : String) (now : Nat) (roots : List Root) :
    ∀ (anti : AntiState),
      ((fillPass p href now anti roots).anti.submittedCount
        = anti.submittedCount + (fillPass p href now anti roots).clicks) ∧
      ((fillPass p href now anti roots).anti.autoSubmit = anti.autoSubmit) ∧
      ((fillPass p href now anti roots).clicks ≤ 1) ∧
      ((fillPass p href now anti roots).clicks ≠ 0 →
        anti.submittedCount < MAX_SUBMITS_PER_TAB ∧ anti.autoSubmit = true) ∧
      ((fillPass p href now anti roots).result = false →
        (fillPass p href now anti roots).anti = anti ∧
        (fillPass p href now anti roots).clicks = 0) := by
  induction roots with
  | nil =>
      intro anti
      simp [fillPass]
  | cons r rs ih =>
      intro anti
      simp only [fillPass]
      split
      · split
        · rename_i hgate
          have hg : canAutoSubmit anti now = true := by
            revert hgate
            cases canAutoSubmit anti now <;> simp
          rcases canAutoSubmit_true_facts hg with ⟨ha, hc⟩
          simp [recordSubmit, ha, hc]
        · simp
      · exact ih anti

set_option maxHeartbeats 2000000 in
/-- Accounting of one poll tick. -/
theorem stepTick_spec (s : CSState) (page : Page) (now : Nat) :
    ((stepTick s page now).state.anti.submittedCount
      = s.anti.submittedCount + (stepTick s page now).clicks) ∧
    ((stepTick s page now).state.anti.autoSubmit = s.anti.autoSubmit) ∧
    ((stepTick s page now).clicks ≤ 1) ∧
    ((stepTick s page now).clicks ≠ 0 →
      s.anti.submittedCount < MAX_SUBMITS_PER_TAB ∧ s.anti.autoSubmit = true) := by
  obtain ⟨b1, b2, b3, b4, b5⟩ :=
    fillBothAux_spec s.u s.p page.href now (allRoots page) s.anti false 0
  obtain ⟨p1, p2, p3, p4, p5⟩ :=
    fillPass_spec s.p page.href now (allRoots page) s.anti
  obtain ⟨u1, u2, u3, u4, u5⟩ :=
    fillUser_spec s.u page.href now (allRoots page) s.anti
  simp only [stepTick, fillBoth]
  dsimp only
  split
  · exact ⟨rfl, rfl, Nat.zero_le 1, fun h => absurd rfl h⟩
  · split
    · exact ⟨rfl, rfl, Nat.zero_le 1, fun h => absurd rfl h⟩
    · split
      · exact ⟨rfl, rfl, Nat.zero_le 1, fun h => absurd rfl h⟩
      · split
        · split
          · exact ⟨b1, b2, b3, b4⟩
          · split
            · exact ⟨b1, b2, b3, b4⟩
            · exact ⟨b1, b2, b3, b4⟩
        · split
          · split
            · exact ⟨b1, b2, b3, b4⟩
            · rename_i hres
              have hres0 : (fillBothAux s.u s.p page.href now s.anti false 0
                  (allRoots page)).result = false := by
                revert hres
                cases (fillBothAux s.u s.p page.href now s.anti false 0
                  (allRoots page)).result <;> simp
              obtain ⟨ha, hcl⟩ := b5 hres0
              simp only [ha, hcl, Nat.zero_add]
              split <;> try split
              all_goals exact ⟨u1, u2, u3, u4⟩
          · split <;> try split
            all_goals exact ⟨p1, p2, p3, p4⟩

/-- Accounting of one mutation notification. -/
theorem stepMutation_spec (s : CSState) (page : Page) (now : Nat) :
    ((stepMutation s page now).state.anti.submittedCount
      = s.anti.submittedCount + (stepMutation s page now).clicks) ∧
    ((stepMutation s page now).state.anti.autoSubmit = s.anti.autoSubmit) ∧
    ((stepMutation s page now).clicks ≤ 1) ∧
    ((stepMutation s page now).clicks ≠ 0 →
      s.anti.submittedCount < MAX_SUBMITS_PER_TAB ∧ s.anti.autoSubmit = true) := by
  obtain ⟨b1, b2, b3, b4, b5⟩ :=
    fillBothAux_spec s.u s.p page.href now (allRoots page) s.anti false 0
  obtain ⟨p1, p2, p3, p4, p5⟩ :=
    fillPass_spec s.p page.href now (allRoots page) s.anti
  simp only [stepMutation, fillBoth]
  split
  · exact ⟨rfl, rfl, Nat.zero_le 1, fun h => absurd rfl h⟩
  · split
    · exact ⟨rfl, rfl, Nat.zero_le 1, fun h => absurd rfl h⟩
    · split
      · exact ⟨b1, b2, b3, b4⟩
      · split
        · exact ⟨p1, p2, p3, p4⟩
        · exact ⟨b1, b2, b3, b4⟩

/-- Accounting of one arbitrary trigger. -/
theorem step_spec (s : CSState) (ev : Ev) :
    ((step s ev).state.anti.submittedCount
      = s.anti.submittedCount + (step s ev).clicks) ∧
    ((step s ev).state.anti.autoSubmit = s.anti.autoSubmit) ∧
    ((step s ev).clicks ≤ 1) ∧
    ((step s ev).clicks ≠ 0 →
      s.anti.submittedCount < MAX_SUBMITS_PER_TAB ∧ s.anti.autoSubmit = true) := by
  cases ev with
  | tick page now => exact stepTick_spec s page now
  | mutation page now => exact stepMutation_spec s page now

/-- Run-level accounting: from a state within the cap, the counter tracks the
click total and never exceeds `MAX_SUBMITS_PER_TAB`. -/
theorem run_count_le (evs : List Ev) :
    ∀ s : CSState, s.anti.submittedCount ≤ MAX_SUBMITS_PER_TAB →
      ((run s evs).state.anti.submittedCount
        = s.anti.submittedCount + (run s evs).clicks) ∧
      (run s evs).state.anti.submittedCount ≤ MAX_SUBMITS_PER_TAB := by
  induction evs with
  | nil =>
      intro s hs
      exact ⟨rfl, hs⟩
  | cons ev evs ih =>
      intro s hs
      obtain ⟨h1, h2, h3, h4⟩ := step_spec s ev
      have hle : (step s ev).state.anti.submittedCount ≤ MAX_SUBMITS_PER_TAB := by
        by_cases hc : (step s ev).clicks = 0
        · omega
        · obtain ⟨hlt, -⟩ := h4 hc
          omega
      obtain ⟨r1, r2⟩ := ih (step s ev).state hle
      constructor
      · simp only [run]
        omega
      · simp only [run]
        exact r2

/-- Run-level consequence of the disabled auto-submit flag: it stays
disabled and no click ever happens. -/
theorem run_auto_off (evs : List Ev) :
    ∀ s : CSState, s.anti.autoSubmit = false →
      (run s evs).state.anti.autoSubmit = false ∧ (run s evs).clicks = 0 := by
  induction evs with
  | nil =>
      intro s hs
      exact ⟨hs, rfl⟩
  | cons ev evs ih =>
      intro s hs
      obtain ⟨h1, h2, h3, h4⟩ := step_spec s ev
      have hc : (step s ev).clicks = 0 := by
        by_cases hc : (step s ev).clicks = 0
        · exact hc
        · obtain ⟨-, hauto⟩ := h4 hc
          rw [hauto] at hs
          exact Bool.noConfusion hs
      obtain ⟨r1, r2⟩ := ih (step s ev).state (by rw [h2]; exact hs)
      constructor
      · simp only [run]
        exact r1
      · simp only [run]
        omega

end Min

/-! ## Disarmed states are inert (part_000) -/

namespace Min

/-- A disarmed state processes any trigger without fills, clicks or
messages, and stays disarmed. -/
theorem step_disarmed (s : CSState) (ev : Ev) (h : s.armed = false) :
    (step s ev).state.armed = false ∧ (step s ev).msgs = [] ∧
    (step s ev).clicks = 0 ∧ (step s ev).fills = 0 := by
  cases ev with
  | tick page now =>
      simp only [step, stepTick]
      split_ifs <;> exact ⟨h, rfl, rfl, rfl⟩
  | mutation page now =>
      simp only [step, stepMutation]
      split_ifs <;> exact ⟨h, rfl, rfl, rfl⟩

/-- Disarmed states stay inert over whole trigger sequences. -/
theorem run_disarmed (evs : List Ev) :
    ∀ s : CSState, s.armed = false →
      (run s evs).state.armed = false ∧ (run s evs).msgs = [] ∧
      (run s evs).clicks = 0 ∧ (run s evs).fills = 0 := by
  induction evs with
  | nil =>
      intro s h
      exact ⟨h, rfl, rfl, rfl⟩
  | cons ev evs ih =>
      intro s h
      obtain ⟨h1, h2, h3, h4⟩ := step_disarmed s ev h
      obtain ⟨r1, r2, r3, r4⟩ := ih (step s ev).state h1
      refine ⟨?_, ?_, ?_, ?_⟩ <;> simp only [run]
      · exact r1
      · rw [h2, r2]
        rfl
      · omega
      · omega

end Min

/-! ## Claim C1 — the submit cap -/

/-- C1 amended: in the part_000 content script, starting from the state
`requestCreds` sets up, the total number of automatic submit clicks over any
trigger sequence never exceeds `MAX_SUBMITS_PER_TAB`: every click site checks
`canAutoSubmit` and records through `recordSubmit`. -/
theorem c1_min_submit_cap (u p : String) (twoStep : Bool) (stage : String)
    (t0 : Nat) (evs : List Ev) :
    (Min.run (Min.initState u p twoStep stage t0) evs).clicks
      ≤ Min.MAX_SUBMITS_PER_TAB := by
  have h0 : (Min.initState u p twoStep stage t0).anti.submittedCount
      ≤ Min.MAX_SUBMITS_PER_TAB := by
    simp [Min.initState, Min.antiInit, Min.MAX_SUBMITS_PER_TAB]
  obtain ⟨h1, h2⟩ := Min.run_count_le evs (Min.initState u p twoStep stage t0) h0
  have h3 : (Min.initState u p twoStep stage t0).anti.submittedCount = 0 := rfl
  omega

/-- C1 counterexample page: one ordinary login form. -/
def c1user : InputEl := ⟨some "text", "username", "", "", "", "", some 0⟩

/-- C1 counterexample page: the password field. -/
def c1pass : InputEl := ⟨some "password", "password", "", "", "", "", some 0⟩

/-- C1 counterexample page: the submit button. -/
def c1btn : ButtonEl := ⟨some "submit", "Log in", some 0⟩

/-- C1 counterexample page. -/
def c1page : Page := ⟨⟨[c1user, c1pass], [c1btn]⟩, [], "https://t1.test/", "hello"⟩

/-- C1 counterexample: the content.js flow controller clicks the submit
control once per trigger with no gate at all — after a tick and one mutation
notification it has clicked twice, exceeding `MAX_SUBMITS_PER_TAB = 1`, so
the claim is false for that controller. -/
theorem c1_pro_clicks_exceed_cap_counterexample :
    (Pro.runNormal "alice" "pw1" ⟨true, 0⟩
      [Ev.tick c1page 0, Ev.mutation c1page 800]).clicks = 2 ∧
    Min.MAX_SUBMITS_PER_TAB < 2 :=
  ⟨by decide, by decide⟩

/-! ## Claim C2 — auto-submit is off by default -/

/-- C2: `anti.autoSubmit` starts as `AUTO_SUBMIT_DEFAULT = false`, no step of
the part_000 flow ever enables it, so over every trigger sequence the gate
`canAutoSubmit` stays closed and not a single automatic submit click
happens. -/
theorem c2_default_never_auto_submits (u p : String) (twoStep : Bool)
    (stage : String) (t0 now : Nat) (evs : List Ev) :
    Min.AUTO_SUBMIT_DEFAULT = false ∧
    (Min.run (Min.initState u p twoStep stage t0) evs).clicks = 0 ∧
    Min.canAutoSubmit
      (Min.run (Min.initState u p twoStep stage t0) evs).state.anti now
      = false := by
  obtain ⟨h1, h2⟩ := Min.run_auto_off evs (Min.initState u p twoStep stage t0) rfl
  exact ⟨rfl, h2, Min.canAutoSubmit_false_of_disabled h1⟩

/-! ## Claim C3 — failure detection runs on ticks, not on mutations -/

/-- C3 counterexample page: a login form whose rendered text already shows a
failure phrase. -/
def c3user : InputEl := ⟨some "text", "login", "", "", "", "", some 0⟩

/-- C3 counterexample page: the password field. -/
def c3pass : InputEl := ⟨some "password", "passwd", "", "", "", "", some 0⟩

/-- C3 counterexample page: the submit button. -/
def c3btn : ButtonEl := ⟨some "submit", "Sign in", some 0⟩

/-- C3 counterexample page. -/
def c3page : Page := ⟨⟨[c3user, c3pass], [c3btn]⟩, [], "https://t3.test/a",
  "Invalid credentials"⟩

/-- C3 counterexample armed state. -/
def c3state : Min.CSState := Min.initState "alice" "pw" false "init" 0

/-- C3 counterexample: on a mutation trigger of an armed part_000 flow whose
page shows a positive failure detection, no detection runs — the flow stays
armed, sends neither `clearCreds` nor `markOriginFailure`, and still performs
fill actions.  The claim's "on every trigger" is false for mutation
triggers. -/
theorem c3_mutation_skips_failure_detection_counterexample :
    Min.pageShowsLikelyFailure c3page c3state.anti = true ∧
    (Min.stepMutation c3state c3page 1000).msgs = [] ∧
    (Min.stepMutation c3state c3page 1000).state.armed = true ∧
    (Min.stepMutation c3state c3page 1000).fills = 2 :=
  ⟨by decide, by decide, by decide, by decide⟩

/-- C3 amended: on every poll tick of an armed flow, failure detection runs
before any fill logic and a positive detection immediately disarms, starts
the local cooldown, sends `clearCreds` and `markOriginFailure`, and performs
no fill or click that tick; mutation triggers, by contrast, never run
detection, never change `armed` or `stage` and never send messages. -/
theorem c3_tick_failure_detection_preempts (s : Min.CSState) (page : Page)
    (now : Nat) (h1 : s.intervalActive = true) (h2 : s.armed = true)
    (h3 : Min.pageShowsLikelyFailure page s.anti = true) :
    ((Min.stepTick s page now).state.armed = false ∧
     (Min.stepTick s page now).state.intervalActive = false ∧
     (Min.stepTick s page now).state.anti.coolDownUntil
       = now + Min.SUBMIT_COOLDOWN_MS ∧
     (Min.stepTick s page now).msgs = [Msg.clearCreds, Msg.markOriginFailure] ∧
     (Min.stepTick s page now).clicks = 0 ∧
     (Min.stepTick s page now).fills = 0) ∧
    (∀ (s2 : Min.CSState) (pg2 : Page) (n2 : Nat),
      (Min.stepMutation s2 pg2 n2).msgs = [] ∧
      (Min.stepMutation s2 pg2 n2).state.armed = s2.armed ∧
      (Min.stepMutation s2 pg2 n2).state.stage = s2.stage) := by
  constructor
  · simp [Min.stepTick, h1, h2, h3, Min.onFailureCoolDown]
  · intro s2 pg2 n2
    unfold Min.stepMutation
    split_ifs <;> simp

/-- C3 witness page for the amended theorem. -/
def c3wpage : Page := ⟨⟨[⟨some "password", "pw9", "", "", "", "", some 0⟩], []⟩,
  [], "https://w3.test/", "access denied"⟩

/-- C3 witness armed state. -/
def c3wstate : Min.CSState := Min.initState "bob" "pw" true "init" 0

/-- C3 witness: a concrete tick with a positive detection disarms and sends
both messages. -/
theorem c3_tick_failure_detection_preempts_witness :
    (Min.stepTick c3wstate c3wpage 500).state.armed = false ∧
    (Min.stepTick c3wstate c3wpage 500).msgs
      = [Msg.clearCreds, Msg.markOriginFailure] ∧
    (Min.stepTick c3wstate c3wpage 500).fills = 0 := by
  have h := c3_tick_failure_detection_preempts c3wstate c3wpage 500
    rfl rfl (by decide)
  exact ⟨h.1.1, h.1.2.2.2.1, h.1.2.2.2.2.2⟩

/-! ## Claim C6 — Disarmed is terminal -/

/-- C6 counterexample page: a login form content.js fills and submits. -/
def c6user : InputEl := ⟨some "email", "correo1", "", "", "", "", some 0⟩

/-- C6 counterexample page: the password field. -/
def c6pass : InputEl := ⟨some "password", "clave", "", "", "", "", some 0⟩

/-- C6 counterexample page: the submit button. -/
def c6btn : ButtonEl := ⟨some "submit", "Entrar", some 0⟩

/-- C6 counterexample page. -/
def c6page : Page := ⟨⟨[c6user, c6pass], [c6btn]⟩, [], "https://t6.test/", "hola"⟩

/-- C6 counterexample: in content.js's `tryAutofillNormal`, the first tick
succeeds and clears the vault (the destination is Disarmed), but the mutation
observer is never disconnected and keeps filling and clicking on later
mutation triggers — further fill and submit actions after Disarmed, so the
claim is false for that controller. -/
theorem c6_pro_acts_after_disarm_counterexample :
    (Pro.runNormal "carol" "pw2" ⟨true, 0⟩ [Ev.tick c6page 0]).msgs
      = [Msg.clearCreds] ∧
    (Pro.stepNormal "carol" "pw2"
      (Pro.runNormal "carol" "pw2" ⟨true, 0⟩ [Ev.tick c6page 0]).state
      (Ev.mutation c6page 900)).fills = 2 ∧
    (Pro.stepNormal "carol" "pw2"
      (Pro.runNormal "carol" "pw2" ⟨true, 0⟩ [Ev.tick c6page 0]).state
      (Ev.mutation c6page 900)).clicks = 1 :=
  ⟨by decide, by decide, by decide⟩

/-- C6 amended: in the part_000 content script the property holds — once
`armed = false`, every later trigger (tick or mutation) performs no fill, no
click, and sends no message, and the state stays disarmed. -/
theorem c6_min_disarmed_inert (s : Min.CSState) (evs : List Ev)
    (h : s.armed = false) :
    (Min.run s evs).state.armed = false ∧ (Min.run s evs).msgs = [] ∧
    (Min.run s evs).clicks = 0 ∧ (Min.run s evs).fills = 0 :=
  Min.run_disarmed evs s h

/-- C6 witness disarmed state. -/
def c6wstate : Min.CSState :=
  { armed := false, u := "x", p := "y", twoStep := false, stage := "init",
    anti := Min.antiInit, intervalActive := true, attempts := 3,
    moUntil := 15000 }

/-- C6 witness: a concrete disarmed state stays inert over a tick and a
mutation. -/
theorem c6_min_disarmed_inert_witness :
    (Min.run c6wstate [Ev.tick c6page 100, Ev.mutation c6page 200]).msgs = [] ∧
    (Min.run c6wstate [Ev.tick c6page 100, Ev.mutation c6page 200]).clicks = 0 ∧
    (Min.run c6wstate [Ev.tick c6page 100, Ev.mutation c6page 200]).fills = 0 := by
  have h := c6_min_disarmed_inert c6wstate
    [Ev.tick c6page 100, Ev.mutation c6page 200] rfl
  exact ⟨h.2.1, h.2.2.1, h.2.2.2⟩

/-! ## part_000 background worker ("BG") — vault, cooldown tracker, arming -/

/-- Model of JS `Map.set` over an association list: replace-or-add with
lookup semantics (iteration order of the map is never used by the source). -/
def mapSet {κ ν : Type} [DecidableEq κ] (m : List (κ × ν)) (k : κ) (v : ν) :
    List (κ × ν) :=
  (k, v) :: m.filter (fun kv => decide (kv.1 ≠ k))

/-- Model of JS `Map.delete`. -/
def mapDel {κ ν : Type} [DecidableEq κ] (m : List (κ × ν)) (k : κ) :
    List (κ × ν) :=
  m.filter (fun kv => decide (kv.1 ≠ k))

/-- `Map.set` makes the key map to exactly the new value, overwriting any
prior binding. -/
theorem mapSet_lookup {κ ν : Type} [DecidableEq κ] (m : List (κ × ν))
    (k : κ) (v : ν) : (mapSet m k v).lookup k = some v := by
  simp [mapSet, List.lookup]

namespace BG

/-- The background's cooldown window (10 minutes, mirroring the content
script's constant). -/
def SUBMIT_COOLDOWN_MS : Nat := 10 * 60 * 1000

/-- A vault entry (`{ u, p, mode: { twoStep }, stage }`). -/
structure Payload where
  u : String
  p : String
  twoStep : Bool
  stage : String
deriving DecidableEq, Repr

/-- The background worker's three module-level maps. -/
structure BGState where
  credsByTab : List (Nat × Payload)
  rawHrefPerTab : List (Nat × String)
  failUntilByOrigin : List (String × Nat)
deriving DecidableEq, Repr

/-- Message kinds handled by `chrome.runtime.onMessage`. -/
inductive BGMsg
  | storeRawHref (href : String)
  | requestCreds
  | updateStage (stage : String)
  | clearCreds
  | markOriginFailure
deriving DecidableEq, Repr

/-- The `onMessage` listener of part_000 (state effect only; `requestCreds`
replies with `credsByTab.get(tabId)` and leaves the state unchanged).
`markOriginFailure` derives the origin from the sender tab's URL and, when it
is nonempty, overwrites the origin's entry with `now + SUBMIT_COOLDOWN_MS`. -/
def onMessage (st : BGState) (tabId : Nat) (senderUrl : String) (now : Nat) :
    BGMsg → BGState
  | .storeRawHref href => { st with rawHrefPerTab := mapSet st.rawHrefPerTab tabId href }
  | .requestCreds => st
  | .updateStage stage =>
      match st.credsByTab.lookup tabId with
      | some c => { st with credsByTab := mapSet st.credsByTab tabId { c with stage := stage } }
      | none => st
  | .clearCreds => { st with credsByTab := mapDel st.credsByTab tabId }
  | .markOriginFailure =>
      if originOf senderUrl = "" then st
      else
        let fm := mapSet st.failUntilByOrigin (originOf senderUrl) (now + SUBMIT_COOLDOWN_MS)
        { st with failUntilByOrigin := fm }

/-- What `contextMenus.onClicked` did to the world: the tab/window it opened
and the arming it performed. -/
inductive OpenAction
  | openTab (url : String)
  | openIncog (url : String)
deriving DecidableEq, Repr

/-- Result of one `onClicked` invocation. -/
structure ClickOut where
  state : BGState
  opened : Option OpenAction
  armedTab : Option (Nat × Payload)
deriving DecidableEq, Repr

/-- `cached || info.selectionText || info.linkUrl || ""` — the raw text the
parser sees (empty strings are falsy in JS). -/
def rawOf (st : BGState) (tabId : Nat) (selectionText linkUrl : String) :
    String :=
  if ((st.rawHrefPerTab.lookup tabId).getD "") ≠ ""
    then (st.rawHrefPerTab.lookup tabId).getD ""
  else if selectionText ≠ "" then selectionText
  else linkUrl

/-- `if (cached) rawHrefPerTab.delete(tabId)`. -/
def consumeRaw (st : BGState) (tabId : Nat) : BGState :=
  if ((st.rawHrefPerTab.lookup tabId).getD "") ≠ ""
    then { st with rawHrefPerTab := mapDel st.rawHrefPerTab tabId }
  else st

/-- The two incognito menu entries. -/
def isIncogMenu (menuItemId : String) : Bool :=
  menuItemId == "cl-open-incog" || menuItemId == "cl-open-incog-2step"

/-- The two two-step menu entries. -/
def isTwoStepMenu (menuItemId : String) : Bool :=
  menuItemId == "cl-open-2step" || menuItemId == "cl-open-incog-2step"

/-- `contextMenus.onClicked` of part_000: parse the captured raw text; on a
cooled-down origin (`Date.now() < failUntilByOrigin.get(origin) || 0`) open
the URL but do not arm; otherwise open and arm the new tab (`newTabId` is the
identifier the platform hands to the `tabs.create` / `windows.create`
callback). -/
def onClicked (st : BGState) (tabId : Nat)
    (menuItemId selectionText linkUrl : String) (now : Nat) (newTabId : Nat) :
    ClickOut :=
  let st1 := consumeRaw st tabId
  match parseColonLink (rawOf st tabId selectionText linkUrl) with
  | none => ⟨st1, none, none⟩
  | some parsed =>
      if now < ((st1.failUntilByOrigin.lookup (originOf parsed.url)).getD 0) then
        if isIncogMenu menuItemId then ⟨st1, some (.openIncog parsed.url), none⟩
        else ⟨st1, some (.openTab parsed.url), none⟩
      else
        let payload : Payload :=
          ⟨parsed.username, parsed.password, isTwoStepMenu menuItemId, "init"⟩
        let opened :=
          if isIncogMenu menuItemId then OpenAction.openIncog parsed.url
          else OpenAction.openTab parsed.url
        ⟨{ st1 with credsByTab := mapSet st1.credsByTab newTabId payload },
          some opened, some (newTabId, payload)⟩

/-- `consumeRaw` touches only the raw-href map. -/
theorem consumeRaw_failUntil (st : BGState) (tabId : Nat) :
    (consumeRaw st tabId).failUntilByOrigin = st.failUntilByOrigin := by
  unfold consumeRaw
  split <;> rfl

/-- `consumeRaw` leaves the vault alone. -/
theorem consumeRaw_creds (st : BGState) (tabId : Nat) :
    (consumeRaw st tabId).credsByTab = st.credsByTab := by
  unfold consumeRaw
  split <;> rfl

end BG

/-! ## Claim C5 — origin cooldown: overwrite on failure, advisory gate -/

/-- C5: `markOriginFailure` overwrites the sender origin's cooldown stamp
with `now + SUBMIT_COOLDOWN_MS` (10 minutes) whatever was stored before; and
every arming request whose parsed target origin is still cooling down
(`now < cooldownUntil`) opens the destination (normal or incognito) but arms
nothing — the vault is untouched. -/
theorem c5_cooldown_overwrite_and_gate :
    (∀ (st : BG.BGState) (tabId : Nat) (url : String) (now : Nat),
      originOf url ≠ "" →
      ((BG.onMessage st tabId url now .markOriginFailure).failUntilByOrigin.lookup
        (originOf url) = some (now + BG.SUBMIT_COOLDOWN_MS))) ∧
    (∀ (st : BG.BGState) (tabId : Nat)
        (menuItemId selectionText linkUrl : String) (now newTabId : Nat)
        (parsed : ColonLink),
      parseColonLink (BG.rawOf st tabId selectionText linkUrl) = some parsed →
      now < ((st.failUntilByOrigin.lookup (originOf parsed.url)).getD 0) →
      (BG.onClicked st tabId menuItemId selectionText linkUrl now newTabId).armedTab
        = none ∧
      ((BG.onClicked st tabId menuItemId selectionText linkUrl now newTabId).opened
          = some (.openTab parsed.url) ∨
        (BG.onClicked st tabId menuItemId selectionText linkUrl now newTabId).opened
          = some (.openIncog parsed.url)) ∧
      (BG.onClicked st tabId menuItemId selectionText linkUrl now newTabId).state.credsByTab
        = st.credsByTab) := by
  constructor
  · intro st tabId url now h
    simp only [BG.onMessage]
    rw [if_neg h]
    exact mapSet_lookup st.failUntilByOrigin (originOf url)
      (now + BG.SUBMIT_COOLDOWN_MS)
  · intro st tabId menuItemId selectionText linkUrl now newTabId parsed hp hcool
    simp only [BG.onClicked, hp]
    rw [if_pos (by rw [BG.consumeRaw_failUntil]; exact hcool)]
    by_cases hi : BG.isIncogMenu menuItemId = true
    · rw [if_pos hi]
      exact ⟨rfl, Or.inr rfl, BG.consumeRaw_creds st tabId⟩
    · rw [if_neg hi]
      exact ⟨rfl, Or.inl rfl, BG.consumeRaw_creds st tabId⟩

/-- C5 witness state: origin `https://h5.co` cooled down until `99`. -/
def c5st : BG.BGState := ⟨[], [], [("https://h5.co", 99)]⟩

/-- C5 witness: a failure report overwrites the stamp, and an arming request
during the window opens without arming. -/
theorem c5_cooldown_overwrite_and_gate_witness :
    ((BG.onMessage c5st 1 "https://h5.co/login" 7
        .markOriginFailure).failUntilByOrigin.lookup "https://h5.co"
      = some (7 + BG.SUBMIT_COOLDOWN_MS)) ∧
    (BG.onClicked c5st 1 "cl-open" "h5.co:a:b" "" 7 2).armedTab = none ∧
    (BG.onClicked c5st 1 "cl-open" "h5.co:a:b" "" 7 2).state.credsByTab = [] := by
  have h1 := c5_cooldown_overwrite_and_gate.1 c5st 1 "https://h5.co/login" 7
    (by decide)
  have h2 := c5_cooldown_overwrite_and_gate.2 c5st 1 "cl-open" "h5.co:a:b" "" 7 2
    ⟨"https://h5.co/", "a", "b"⟩ (by decide) (by decide)
  exact ⟨h1, h2.1, h2.2.2⟩
